import Mathlib

/-!
Verification of the pdf-toolbox retrieval/summarization pipeline and PDF
utilities.  Pure functions are translated from `src/utils/pdf_analysis.py`
and `src/utils/pdf_processing.py`; components that live in third-party
libraries (text splitter, vector index, remote completion client) are
modelled from the specification, as indicated on each definition.
-/

namespace PdfToolbox

/-- Error taxonomy of spec section 7: ValidationError, ModelLoadError,
AuthenticationError, NetworkError, RateLimitError, UpstreamError. -/
inductive Err where
  | validation
  | modelLoad
  | authentication
  | network
  | rateLimit
  | upstream
deriving DecidableEq

/-- Modelled from the spec: the Chunker (section 4.1) used by
`build_retriever_from_text` is the library text splitter, absent from src.
Fuel-indexed worker: produces windows of at most `size` characters, each
consecutive pair overlapping in `size - (size - overlap) = overlap`
characters; a text no longer than `size` is a single chunk.  The fuel is an
upper bound on the input length, consumed one unit per emitted chunk. -/
def chunkTextAux (size overlap : Nat) : Nat → List α → List (List α)
  | 0, _ => []
  | fuel + 1, s =>
    if s.length ≤ size then [s]
    else s.take size :: chunkTextAux size overlap fuel (s.drop (size - overlap))

/-- Modelled from the spec: the Chunker contract of section 4.1.  Empty
input yields an empty chunk sequence; otherwise overlapping windows. -/
def chunkText (size overlap : Nat) (s : List α) : List (List α) :=
  chunkTextAux size overlap s.length s

/-- Trim each chunk of its overlap with its predecessor (the first chunk is
kept whole) and concatenate in order. -/
def overlapTrimConcat (overlap : Nat) : List (List α) → List α
  | [] => []
  | c :: cs => c ++ (cs.map (List.drop overlap)).flatten

/-- A loaded embedding-model instance, identified by its load sequence
number. -/
structure EmbModel where
  id : Nat
deriving DecidableEq

/-- Process-wide state: how many embedding-model instances have been
constructed so far in this process. -/
structure ProcState where
  loaded : Nat
deriving DecidableEq

/-- Modelled from the spec: constructing `HuggingFaceEmbeddings(...)`
(the Embedder of section 4.2) loads a sentence-embedding model; each
construction yields a fresh instance and advances the process state. -/
def loadEmbeddingModel (st : ProcState) : EmbModel × ProcState :=
  (⟨st.loaded⟩, ⟨st.loaded + 1⟩)

/-- The retriever returned by `build_retriever_from_text`: the chunked
texts, the embeddings instance it holds, and the search breadth `k`. -/
structure Retriever where
  chunks : List String
  embModel : EmbModel
  k : Int
deriving DecidableEq

/-- Default chunk size of `build_retriever_from_text` (src line 12). -/
def defaultChunkSize : Nat := 800

/-- Default chunk overlap of `build_retriever_from_text` (src line 12). -/
def defaultChunkOverlap : Nat := 100

/-- Default retrieval breadth of `build_retriever_from_text` (src line 12). -/
def defaultK : Int := 3

/-- Default model name of `together_llm` (src line 21). -/
def defaultModel : String := "meta-llama/Llama-Vision-Free"

/-- Default sampling temperature of `together_llm` (src line 21). -/
def defaultTemperature : ℚ := 0.2

/-- Default max output tokens of `together_llm` (src line 21). -/
def defaultMaxTokens : Nat := 512

/-- Temperature passed by `summarize_text` at its call site (src line 52). -/
def summarizeTemperature : ℚ := 0.2

/-- Max output tokens passed by `summarize_text` (src line 52). -/
def summarizeMaxTokens : Nat := 400

/-- `build_retriever_from_text` (src lines 12-17): split the text, construct
a fresh embeddings instance, build the store, return a retriever with
search breadth `k`.  The constructor call `HuggingFaceEmbeddings(...)`
appears inline in the function body, so it runs on every invocation. -/
def buildRetrieverFromText (st : ProcState) (text : String)
    (chunkSize overlap : Nat) (k : Int) : Retriever × ProcState :=
  let chunks := (chunkText chunkSize overlap text.data).map String.mk
  let p := loadEmbeddingModel st
  (⟨chunks, p.1, k⟩, p.2)

/-- The chat-model client built by `together_llm` (src lines 21-28). -/
structure LlmClient where
  model : String
  temperature : ℚ
  maxTokens : Nat
  apiKey : Option String
  apiBase : String
deriving DecidableEq

/-- `together_llm` (src lines 21-28): a `ChatOpenAI` client pointed at the
Together endpoint, holding the given credential. -/
def togetherLlm (key : Option String) (model : String) (temperature : ℚ)
    (maxTokens : Nat) : LlmClient :=
  ⟨model, temperature, maxTokens, key, "https://api.together.xyz/v1"⟩

/-- `together_llm` reads its credential from the environment:
`os.getenv("TOGETHER_API_KEY")` (src line 26). -/
def togetherLlmFromEnv (env : String → Option String) (model : String)
    (temperature : ℚ) (maxTokens : Nat) : LlmClient :=
  togetherLlm (env "TOGETHER_API_KEY") model temperature maxTokens

/-- Modelled from the spec: the Remote Completion Client call (sections 4.5
and 7), absent from src.  `net` is the remote endpoint (it may fail with a
network-class error).  With no credential configured the call fails with
`AuthenticationError` and no network request; otherwise one request is
issued.  The second component counts network requests attempted. -/
def LlmClient.complete (c : LlmClient) (net : String → Except Err String)
    (prompt : String) : Except Err String × Nat :=
  match c.apiKey with
  | none => (Except.error Err.authentication, 0)
  | some _ => (net prompt, 1)

/-- The fixed instruction template of `summarize_text` (src lines 48-50). -/
def summaryTemplate : String :=
  "You are a concise technical summarizer. Summarize the following document in 6-10 bullet points, preserving key facts, numbers, and definitions. Text:\n\n"

/-- `summarize_text` (src lines 46-54): build the prompt as the fixed
template followed by the whole text, invoke the client once, return
`output.content.strip()`.  The second component records the prompts passed
to the client, in order. -/
def summarizeText (key : Option String) (net : String → Except Err String)
    (text : String) (model : String) : Except Err String × List String :=
  let prompt := summaryTemplate ++ text
  let llm := togetherLlm key model summarizeTemperature summarizeMaxTokens
  match (llm.complete net prompt).1 with
  | Except.ok out => (Except.ok out.trim, [prompt])
  | Except.error e => (Except.error e, [prompt])

/-- An entry of the vector index: a chunk together with its embedding. -/
structure IndexEntry where
  text : String
  vec : List Int
deriving DecidableEq

/-- Squared L2 distance between two embedding vectors. -/
def sqDist (u v : List Int) : Int :=
  ((u.zip v).map fun p => (p.1 - p.2) * (p.1 - p.2)).sum

/-- Comparison of index entries by distance to the query vector `q`. -/
def distLe (q : List Int) (a b : IndexEntry) : Prop :=
  sqDist a.vec q ≤ sqDist b.vec q

instance (q : List Int) : DecidableRel (distLe q) :=
  fun a b => inferInstanceAs (Decidable (sqDist a.vec q ≤ sqDist b.vec q))

instance (q : List Int) : IsTotal IndexEntry (distLe q) :=
  ⟨fun _ _ => Int.le_total _ _⟩

instance (q : List Int) : IsTrans IndexEntry (distLe q) :=
  ⟨fun _ _ _ hab hbc => le_trans hab hbc⟩

/-- Modelled from the spec: the Vector Index nearest-neighbor search
(section 4.3), absent from src.  The `n` entries nearest to `q`, ordered by
non-decreasing distance, ties keeping insertion order (stable sort). -/
def topK (idx : List IndexEntry) (q : List Int) (n : Nat) : List IndexEntry :=
  (idx.insertionSort (distLe q)).take n

/-- Modelled from the spec: `query(vector, k)` of section 4.3: `k ≤ 0` is a
ValidationError; otherwise up to `k` entries by ascending distance. -/
def queryIndex (idx : List IndexEntry) (q : List Int) (k : Int) :
    Except Err (List IndexEntry) :=
  if k ≤ 0 then Except.error Err.validation
  else Except.ok (topK idx q k.toNat)

/-- Pair chunks with their vectors to form the index entries. -/
def mkIndex (chunks : List String) (vecs : List (List Int)) : List IndexEntry :=
  (chunks.zip vecs).map fun p => ⟨p.1, p.2⟩

/-- Modelled from the spec: `build(chunks, vectors)` of section 4.3:
mismatched lengths fail with ValidationError. -/
def buildIndex (chunks : List String) (vecs : List (List Int)) :
    Except Err (List IndexEntry) :=
  if chunks.length = vecs.length then Except.ok (mkIndex chunks vecs)
  else Except.error Err.validation

/-- Embed every chunk in order, stopping at the first failure (the
embedding step of `FAISS.from_texts`). -/
def embedAll (f : String → Except Err (List Int)) :
    List String → Except Err (List (List Int))
  | [] => Except.ok []
  | c :: cs =>
    match f c with
    | Except.error e => Except.error e
    | Except.ok v =>
      match embedAll f cs with
      | Except.error e => Except.error e
      | Except.ok vs => Except.ok (v :: vs)

/-- The chunk sequence used by `rag_qa`, which calls
`build_retriever_from_text(text)` with all defaults (src line 33). -/
def ragChunks (text : String) : List String :=
  (chunkText defaultChunkSize defaultChunkOverlap text.data).map String.mk

/-- Modelled from the spec: the stuff-chain prompt of section 4.6, built
from the retrieved chunks plus the question. -/
def ragPrompt (chunks : List String) (question : String) : String :=
  String.intercalate "\n\n" chunks ++ "\n\nQuestion: " ++ question

/-- The environment of the QA flow: the Embedder, the configured
credential, and the remote completion endpoint. -/
structure RagEnv where
  embed : String → Except Err (List Int)
  apiKey : Option String
  net : String → Except Err String

/-- `rag_qa` (src lines 32-42), with the `RetrievalQA` chain internals
modelled from spec section 4.6: chunk, embed all chunks, build the index,
embed the question, retrieve top-k, build the prompt from the retrieved
chunks plus the question, call the client, and return the answer together
with the ordered source chunks. -/
def ragQa (env : RagEnv) (text question : String) (model : String) :
    Except Err (String × List String) :=
  let chunks := ragChunks text
  match embedAll env.embed chunks with
  | Except.error e => Except.error e
  | Except.ok vecs =>
    match buildIndex chunks vecs with
    | Except.error e => Except.error e
    | Except.ok idx =>
      match env.embed question with
      | Except.error e => Except.error e
      | Except.ok qv =>
        match queryIndex idx qv defaultK with
        | Except.error e => Except.error e
        | Except.ok retrieved =>
          let docs := retrieved.map IndexEntry.text
          let llm := togetherLlm env.apiKey model defaultTemperature defaultMaxTokens
          match (llm.complete env.net (ragPrompt docs question)).1 with
          | Except.error e => Except.error e
          | Except.ok ans => Except.ok (ans, docs)

/-- `extract_tables` (src/utils/pdf_processing.py lines 120-137): try
Camelot; on an exception (`Except.error`) or an empty result fall back to
pdfplumber and return its tables. -/
def extractTables (camelotTables : Except Unit (List α)) (plumberTables : List α) :
    List α :=
  match camelotTables with
  | Except.ok ts => if 0 < ts.length then ts else plumberTables
  | Except.error _ => plumberTables

/-- One step of `reorder_pages`: `dst.insert_pdf(src, from_page=i,
to_page=i)` appends a copy of source page `i` to the output. -/
def insertPdfPage (src : List α) (dst : List α) (i : Nat) : List α :=
  dst ++ (src[i]?).toList

/-- `reorder_pages` (src/utils/pdf_processing.py lines 152-159): start from
an empty document and append the page at each listed 0-indexed position in
turn.  No permutation check is performed. -/
def reorderPages (src : List α) (order : List Nat) : List α :=
  order.foldl (insertPdfPage src) []

/-! ## Chunker round-trip (C1) -/

/-- Every chunk after the first, trimmed of its `overlap`-character overlap
with its predecessor and concatenated, yields the input minus its first
`overlap` characters. -/
theorem flatten_map_drop_chunkTextAux {α : Type} (size overlap : Nat)
    (hov : overlap < size) :
    ∀ (fuel : Nat) (s : List α), s.length ≤ fuel →
      ((chunkTextAux size overlap fuel s).map (List.drop overlap)).flatten =
        s.drop overlap := by
  intro fuel
  induction fuel with
  | zero =>
    intro s hs
    have hnil : s = [] := List.eq_nil_of_length_eq_zero (Nat.le_zero.mp hs)
    subst hnil
    simp [chunkTextAux]
  | succ fuel ih =>
    intro s hs
    by_cases hls : s.length ≤ size
    · simp [chunkTextAux, hls]
    · have hstep : 0 < size - overlap := Nat.sub_pos_of_lt hov
      have hlen : (s.drop (size - overlap)).length ≤ fuel := by
        rw [List.length_drop]
        omega
      simp only [chunkTextAux, if_neg hls, List.map_cons, List.flatten_cons]
      rw [ih (s.drop (size - overlap)) hlen]
      rw [List.drop_take, List.drop_drop]
      have h1 : size - overlap + overlap = size := Nat.sub_add_cancel hov.le
      rw [h1]
      have h2 : List.drop size s =
          List.drop (size - overlap) (List.drop overlap s) := by
        rw [List.drop_drop, Nat.add_sub_cancel' hov.le]
      rw [h2, List.take_append_drop]

/-- Overlap-trimmed concatenation of the chunk sequence restores a
non-empty input exactly. -/
theorem chunker_roundtrip_core {α : Type} (size overlap : Nat)
    (hov : overlap < size) (s : List α) (hne : s ≠ []) :
    overlapTrimConcat overlap (chunkText size overlap s) = s := by
  rw [chunkText]
  cases s with
  | nil => exact absurd rfl hne
  | cons a t =>
    by_cases hls : (a :: t).length ≤ size
    · have hls' : t.length + 1 ≤ size := by simpa using hls
      simp [chunkTextAux, hls', overlapTrimConcat]
    · have hlen : ((a :: t).drop (size - overlap)).length ≤ t.length := by
        rw [List.length_drop]
        have hstep : 0 < size - overlap := Nat.sub_pos_of_lt hov
        simp only [List.length_cons]
        omega
      show overlapTrimConcat overlap
        (chunkTextAux size overlap (t.length + 1) (a :: t)) = a :: t
      simp only [chunkTextAux, if_neg hls]
      rw [overlapTrimConcat]
      rw [flatten_map_drop_chunkTextAux size overlap hov t.length _ hlen]
      rw [List.drop_drop, Nat.sub_add_cancel hov.le]
      exact List.take_append_drop size (a :: t)

/-- Claim C1: for every non-empty document text and every valid chunk size
and overlap, the chunk sequence produced by the text splitter inside
`build_retriever_from_text`, when each chunk is trimmed of its overlap with
its predecessor and the results are concatenated in order, equals the
original text exactly. -/
theorem c1_chunker_roundtrip (st : ProcState) (text : String)
    (size overlap : Nat) (k : Int) (hov : overlap < size) (hne : text ≠ "") :
    overlapTrimConcat overlap
        (((buildRetrieverFromText st text size overlap k).1.chunks).map
          String.data) =
      text.data := by
  have hd : text.data ≠ [] := by
    intro h
    apply hne
    cases text with
    | mk l =>
      have hl : l = [] := h
      subst hl
      rfl
  show overlapTrimConcat overlap
      (((chunkText size overlap text.data).map String.mk).map String.data) =
    text.data
  rw [List.map_map]
  have hid : String.data ∘ String.mk = id := rfl
  rw [hid, List.map_id]
  exact chunker_roundtrip_core size overlap hov text.data hd

/-- Claim C1 witness: a concrete instantiation with text "abcdefgh", chunk
size 5 and overlap 2. -/
theorem c1_chunker_roundtrip_witness :
    2 < 5 ∧ ("abcdefgh" : String) ≠ "" ∧
      overlapTrimConcat 2
          (((buildRetrieverFromText ⟨0⟩ "abcdefgh" 5 2 3).1.chunks).map
            String.data) =
        "abcdefgh".data :=
  ⟨by decide, by decide,
    c1_chunker_roundtrip ⟨0⟩ "abcdefgh" 5 2 3 (by decide) (by decide)⟩

/-! ## Vector index query (C2) -/

/-- Claim C2: for every index of `n` entries and every query vector, if
`0 < k ≤ n` the query returns exactly `k` entries ordered by non-decreasing
distance to the query vector; if `k > n` it returns exactly `n` entries
with no padding and no duplication (a permutation of the index); `k ≤ 0`
fails with a ValidationError. -/
theorem c2_query_index (idx : List IndexEntry) (q : List Int) (k : Int) :
    (0 < k → k ≤ (idx.length : Int) →
      ∃ res, queryIndex idx q k = Except.ok res ∧ (res.length : Int) = k ∧
        List.Sorted (distLe q) res) ∧
    ((idx.length : Int) < k →
      ∃ res, queryIndex idx q k = Except.ok res ∧ res.length = idx.length ∧
        res.Perm idx ∧ List.Sorted (distLe q) res) ∧
    (k ≤ 0 → queryIndex idx q k = Except.error Err.validation) := by
  refine ⟨?_, ?_, ?_⟩
  · intro hk hkn
    have hk0 : ¬ k ≤ 0 := by omega
    refine ⟨topK idx q k.toNat, by simp [queryIndex, hk0], ?_, ?_⟩
    · have hle : k.toNat ≤ idx.length := by omega
      rw [topK, List.length_take, List.length_insertionSort]
      omega
    · exact List.Pairwise.sublist (List.take_sublist _ _)
        (List.sorted_insertionSort (distLe q) idx)
  · intro hn
    have hk0 : ¬ k ≤ 0 := by omega
    have hlen : (idx.insertionSort (distLe q)).length ≤ k.toNat := by
      rw [List.length_insertionSort]
      omega
    have htake : topK idx q k.toNat = idx.insertionSort (distLe q) :=
      List.take_of_length_le hlen
    refine ⟨topK idx q k.toNat, by simp [queryIndex, hk0], ?_, ?_, ?_⟩
    · rw [htake, List.length_insertionSort]
    · rw [htake]
      exact List.perm_insertionSort (distLe q) idx
    · rw [htake]
      exact List.sorted_insertionSort (distLe q) idx
  · intro hk
    simp [queryIndex, hk]

/-- Claim C2 witness: concrete instantiations on a two-entry index with
`k = 1` (within range), `k = 5` (beyond range) and `k = 0` (invalid). -/
theorem c2_query_index_witness :
    (∃ res, queryIndex [⟨"a", [0]⟩, ⟨"b", [3]⟩] [1] 1 = Except.ok res ∧
      (res.length : Int) = 1 ∧ List.Sorted (distLe [1]) res) ∧
    (∃ res, queryIndex [⟨"a", [0]⟩, ⟨"b", [3]⟩] [1] 5 = Except.ok res ∧
      res.length = ([⟨"a", [0]⟩, ⟨"b", [3]⟩] : List IndexEntry).length ∧
      res.Perm [⟨"a", [0]⟩, ⟨"b", [3]⟩] ∧ List.Sorted (distLe [1]) res) ∧
    queryIndex [⟨"a", [0]⟩, ⟨"b", [3]⟩] [1] 0 = Except.error Err.validation :=
  ⟨(c2_query_index [⟨"a", [0]⟩, ⟨"b", [3]⟩] [1] 1).1 (by decide) (by decide),
    (c2_query_index [⟨"a", [0]⟩, ⟨"b", [3]⟩] [1] 5).2.1 (by decide),
    (c2_query_index [⟨"a", [0]⟩, ⟨"b", [3]⟩] [1] 0).2.2 (by decide)⟩

/-! ## Remote client credential check (C3) -/

/-- Claim C3: for every prompt, whenever the TOGETHER_API_KEY environment
variable is unset, a completion call on the client built by `together_llm`
fails with an AuthenticationError and attempts zero network requests. -/
theorem c3_no_credential_fails_fast (env : String → Option String)
    (net : String → Except Err String) (prompt model : String)
    (temperature : ℚ) (maxTokens : Nat)
    (h : env "TOGETHER_API_KEY" = none) :
    (togetherLlmFromEnv env model temperature maxTokens).complete net prompt =
      (Except.error Err.authentication, 0) := by
  rw [togetherLlmFromEnv, togetherLlm, LlmClient.complete]
  rw [h]

/-- Claim C3 witness: concrete empty environment and endpoint. -/
theorem c3_no_credential_fails_fast_witness :
    (togetherLlmFromEnv (fun _ => none) "m" 0.2 512).complete
        (fun _ => Except.ok "reply") "hello" =
      (Except.error Err.authentication, 0) :=
  c3_no_credential_fails_fast (fun _ => none) (fun _ => Except.ok "reply")
    "hello" "m" 0.2 512 rfl

/-! ## Embedding model lifecycle (C4) -/

/-- Claim C4 counterexample: starting from a fresh process state, a second
call to `build_retriever_from_text` does not reuse the model instance
loaded by the first call — it constructs a new one (and the process has
loaded two instances, not one). -/
theorem c4_fresh_model_counterexample :
    ¬ ((buildRetrieverFromText
          ((buildRetrieverFromText ⟨0⟩ "t" 800 100 3).2) "t" 800 100 3).1.embModel =
        (buildRetrieverFromText ⟨0⟩ "t" 800 100 3).1.embModel) ∧
      (buildRetrieverFromText
          ((buildRetrieverFromText ⟨0⟩ "t" 800 100 3).2) "t" 800 100 3).2.loaded = 2 := by
  constructor
  · intro h
    exact absurd (congrArg EmbModel.id h) (by decide)
  · rfl

/-- Claim C4 amended: the embedding model is not process-wide cached state;
`build_retriever_from_text` constructs a fresh embedding model instance on
every call, so two successive calls load two distinct instances and
advance the process load count by two. -/
theorem c4_fresh_model_per_call (st : ProcState) (t₁ t₂ : String)
    (s₁ o₁ s₂ o₂ : Nat) (k₁ k₂ : Int) :
    (buildRetrieverFromText (buildRetrieverFromText st t₁ s₁ o₁ k₁).2
          t₂ s₂ o₂ k₂).1.embModel ≠
        (buildRetrieverFromText st t₁ s₁ o₁ k₁).1.embModel ∧
      (buildRetrieverFromText (buildRetrieverFromText st t₁ s₁ o₁ k₁).2
          t₂ s₂ o₂ k₂).2.loaded = st.loaded + 2 := by
  constructor
  · intro h
    have hid := congrArg EmbModel.id h
    simp only [buildRetrieverFromText, loadEmbeddingModel] at hid
    omega
  · rfl

/-- Claim C4 (amended) witness: two concrete successive calls starting
from load count 5. -/
theorem c4_fresh_model_per_call_witness :
    (buildRetrieverFromText (buildRetrieverFromText ⟨5⟩ "x" 800 100 3).2
          "y" 800 100 3).1.embModel ≠
        (buildRetrieverFromText ⟨5⟩ "x" 800 100 3).1.embModel ∧
      (buildRetrieverFromText (buildRetrieverFromText ⟨5⟩ "x" 800 100 3).2
          "y" 800 100 3).2.loaded = 5 + 2 :=
  c4_fresh_model_per_call ⟨5⟩ "x" "y" 800 100 800 100 3 3

/-! ## Summarization flow (C5) -/

/-- Claim C5: `summarize_text` builds its prompt as the fixed instruction
template followed by the entire document text, calls the completion client
exactly once with that prompt, and returns the response text trimmed of
surrounding whitespace. -/
theorem c5_summarize_text (key : Option String) (k' : String)
    (net : String → Except Err String) (text model out : String)
    (hkey : key = some k')
    (hnet : net (summaryTemplate ++ text) = Except.ok out) :
    summarizeText key net text model =
      (Except.ok out.trim, [summaryTemplate ++ text]) := by
  rw [summarizeText]
  simp only [togetherLlm, LlmClient.complete, hkey, hnet]

/-- Claim C5 witness: concrete credential, endpoint and text. -/
theorem c5_summarize_text_witness :
    summarizeText (some "sk") (fun _ => Except.ok "  a summary  ") "doc text" "m" =
      (Except.ok "  a summary  ".trim, [summaryTemplate ++ "doc text"]) :=
  c5_summarize_text (some "sk") "sk" (fun _ => Except.ok "  a summary  ")
    "doc text" "m" "  a summary  " rfl rfl

/-! ## QA orchestration (C6) -/

/-- Successful embedding of a chunk list yields one vector per chunk. -/
theorem embedAll_ok_length (f : String → Except Err (List Int)) :
    ∀ (l : List String) (vs : List (List Int)),
      embedAll f l = Except.ok vs → vs.length = l.length := by
  intro l
  induction l with
  | nil =>
    intro vs h
    simp only [embedAll, Except.ok.injEq] at h
    rw [← h]
    rfl
  | cons c cs ih =>
    intro vs h
    simp only [embedAll] at h
    cases hf : f c with
    | error e => rw [hf] at h; cases h
    | ok v =>
      rw [hf] at h
      cases hrec : embedAll f cs with
      | error e => rw [hrec] at h; cases h
      | ok vs2 =>
        rw [hrec] at h
        injection h with h2
        rw [← h2, List.length_cons, List.length_cons, ih vs2 hrec]

/-- Retrieval inside `rag_qa` uses the default breadth `k = 3`, which is
positive, so the index query always succeeds. -/
theorem queryIndex_defaultK (idx : List IndexEntry) (q : List Int) :
    queryIndex idx q defaultK = Except.ok (topK idx q 3) := by
  simp [queryIndex, defaultK]

/-- Claim C6: `rag_qa` performs the linear pipeline chunk, embed chunks,
build index, embed question, retrieve top-k, build prompt from retrieved
chunks plus question, call the completion client; on success it returns the
pair of answer text and ordered source chunks, and a failure at any stage
(chunk embedding, question embedding, missing credential, remote call)
propagates to the caller unrecovered with no partial result. -/
theorem c6_rag_qa_pipeline (env : RagEnv) (text question model : String) :
    (∀ vecs qv key ans,
        embedAll env.embed (ragChunks text) = Except.ok vecs →
        env.embed question = Except.ok qv →
        env.apiKey = some key →
        env.net (ragPrompt
            ((topK (mkIndex (ragChunks text) vecs) qv 3).map IndexEntry.text)
            question) = Except.ok ans →
        ragQa env text question model =
          Except.ok (ans,
            (topK (mkIndex (ragChunks text) vecs) qv 3).map IndexEntry.text)) ∧
    (∀ e, embedAll env.embed (ragChunks text) = Except.error e →
        ragQa env text question model = Except.error e) ∧
    (∀ vecs e, embedAll env.embed (ragChunks text) = Except.ok vecs →
        env.embed question = Except.error e →
        ragQa env text question model = Except.error e) ∧
    (∀ vecs qv, embedAll env.embed (ragChunks text) = Except.ok vecs →
        env.embed question = Except.ok qv →
        env.apiKey = none →
        ragQa env text question model = Except.error Err.authentication) ∧
    (∀ vecs qv key e,
        embedAll env.embed (ragChunks text) = Except.ok vecs →
        env.embed question = Except.ok qv →
        env.apiKey = some key →
        env.net (ragPrompt
            ((topK (mkIndex (ragChunks text) vecs) qv 3).map IndexEntry.text)
            question) = Except.error e →
        ragQa env text question model = Except.error e) := by
  refine ⟨?_, ?_, ?_, ?_, ?_⟩
  · intro vecs qv key ans h1 h2 hkey h4
    have hlen : (ragChunks text).length = vecs.length :=
      (embedAll_ok_length env.embed (ragChunks text) vecs h1).symm
    simp only [ragQa, h1, buildIndex, if_pos hlen, h2, queryIndex_defaultK,
      togetherLlm, LlmClient.complete, hkey, h4]
  · intro e h1
    simp only [ragQa, h1]
  · intro vecs e h1 h2
    have hlen : (ragChunks text).length = vecs.length :=
      (embedAll_ok_length env.embed (ragChunks text) vecs h1).symm
    simp only [ragQa, h1, buildIndex, if_pos hlen, h2]
  · intro vecs qv h1 h2 hkey
    have hlen : (ragChunks text).length = vecs.length :=
      (embedAll_ok_length env.embed (ragChunks text) vecs h1).symm
    simp only [ragQa, h1, buildIndex, if_pos hlen, h2, queryIndex_defaultK,
      togetherLlm, LlmClient.complete, hkey]
  · intro vecs qv key e h1 h2 hkey h4
    have hlen : (ragChunks text).length = vecs.length :=
      (embedAll_ok_length env.embed (ragChunks text) vecs h1).symm
    simp only [ragQa, h1, buildIndex, if_pos hlen, h2, queryIndex_defaultK,
      togetherLlm, LlmClient.complete, hkey, h4]

/-- Claim C6 witness: a concrete environment in which every stage succeeds;
the flow returns the answer paired with the retrieved source chunks. -/
theorem c6_rag_qa_pipeline_witness :
    ragQa ⟨fun s => Except.ok [(s.length : Int)], some "sk",
        fun _ => Except.ok "ANSWER"⟩ "ab" "q" "m" =
      Except.ok ("ANSWER",
        (topK (mkIndex (ragChunks "ab") [[2]]) [1] 3).map IndexEntry.text) :=
  (c6_rag_qa_pipeline ⟨fun s => Except.ok [(s.length : Int)], some "sk",
      fun _ => Except.ok "ANSWER"⟩ "ab" "q" "m").1 [[2]] [1] "sk" "ANSWER"
    rfl rfl rfl rfl

/-! ## Empty-text summarization (C7) -/

/-- Claim C7 counterexample: invoked with empty document text and a
configured credential, `summarize_text` does pass the empty text into a
remote-model prompt silently: the prompt sent to the remote model is the
instruction template followed by the empty text, the flow does not fail
with a ValidationError before (or instead of) the remote call, and the
value returned is the trimmed remote response, not a locally produced
degenerate summary. -/
theorem c7_empty_text_counterexample :
    (summarizeText (some "sk") (fun _ => Except.ok "A summary.") "" "m").2 =
      [summaryTemplate ++ ""] ∧
    (summarizeText (some "sk") (fun _ => Except.ok "A summary.") "" "m").2 ≠ [] ∧
    (summarizeText (some "sk") (fun _ => Except.ok "A summary.") "" "m").1 ≠
      Except.error Err.validation ∧
    (summarizeText (some "sk") (fun _ => Except.ok "A summary.") "" "m").1 =
      Except.ok "A summary.".trim := by
  refine ⟨rfl, by decide, ?_, rfl⟩
  intro h
  exact Except.noConfusion h

/-- Claim C7 amended: invoked with empty document text, `summarize_text`
performs no validation and does not avoid the remote call: it passes the
empty text into the prompt silently (the single prompt sent is the
instruction template followed by the empty text) and returns the trimmed
remote response. -/
theorem c7_empty_text_passthrough (key : Option String) (k' : String)
    (net : String → Except Err String) (model : String)
    (h : key = some k') :
    (summarizeText key net "" model).2 = [summaryTemplate ++ ""] ∧
    (summarizeText key net "" model).1 =
      Except.map String.trim (net (summaryTemplate ++ "")) := by
  rw [summarizeText]
  simp only [togetherLlm, LlmClient.complete, h]
  cases hn : net (summaryTemplate ++ "") with
  | ok out => simp [hn, Except.map]
  | error e => simp [hn, Except.map]

/-- Claim C7 witness: concrete credential and endpoint with empty text. -/
theorem c7_empty_text_passthrough_witness :
    (summarizeText (some "sk") (fun _ => Except.ok " s ") "" "m").2 =
      [summaryTemplate ++ ""] ∧
    (summarizeText (some "sk") (fun _ => Except.ok " s ") "" "m").1 =
      Except.map String.trim (Except.ok " s ") :=
  c7_empty_text_passthrough (some "sk") "sk" (fun _ => Except.ok " s ") "m" rfl

/-! ## Default configuration (C8) -/

/-- Claim C8: the default configuration is chunk size 800 characters,
chunk overlap 100 characters, retrieval breadth k = 3, generation
temperature 0.2, and max output tokens 512 for the QA flow (the
`together_llm` default) and 400 for the summarization flow, both within
the range 400 to 512. -/
theorem c8_default_configuration (key : Option String) :
    defaultChunkSize = 800 ∧ defaultChunkOverlap = 100 ∧ defaultK = 3 ∧
    (togetherLlm key defaultModel defaultTemperature defaultMaxTokens).temperature = 0.2 ∧
    (togetherLlm key defaultModel defaultTemperature defaultMaxTokens).maxTokens = 512 ∧
    (togetherLlm key defaultModel summarizeTemperature summarizeMaxTokens).temperature = 0.2 ∧
    (togetherLlm key defaultModel summarizeTemperature summarizeMaxTokens).maxTokens = 400 ∧
    400 ≤ defaultMaxTokens ∧ defaultMaxTokens ≤ 512 ∧
    400 ≤ summarizeMaxTokens ∧ summarizeMaxTokens ≤ 512 :=
  ⟨rfl, rfl, rfl, rfl, rfl, rfl, rfl, by decide, by decide, by decide,
    by decide⟩

/-! ## Table extraction fallback (C9) -/

/-- Claim C9: table extraction tries the structured detector (Camelot)
first and returns its tables when it succeeds with a non-empty result; on
an exception or an empty result it falls back to the heuristic detector
(pdfplumber) and returns that detector's tables. -/
theorem c9_extract_tables (α : Type) (c : Except Unit (List α)) (p : List α) :
    (∀ ts, c = Except.ok ts → ts ≠ [] → extractTables c p = ts) ∧
    (c = Except.ok [] → extractTables c p = p) ∧
    (∀ u, c = Except.error u → extractTables c p = p) := by
  refine ⟨?_, ?_, ?_⟩
  · intro ts hc hne
    subst hc
    simp [extractTables, List.length_pos.mpr hne]
  · intro hc
    subst hc
    simp [extractTables]
  · intro u hc
    subst hc
    simp [extractTables]

/-- Claim C9 witness: concrete runs through all three branches. -/
theorem c9_extract_tables_witness :
    extractTables (Except.ok [[1, 2]]) [[9]] = [[1, 2]] ∧
    extractTables (Except.ok ([] : List (List Nat))) [[9]] = [[9]] ∧
    extractTables (Except.error () : Except Unit (List (List Nat))) [[9]] = [[9]] :=
  ⟨(c9_extract_tables (List Nat) (Except.ok [[1, 2]]) [[9]]).1 [[1, 2]] rfl
      (by decide),
    (c9_extract_tables (List Nat) (Except.ok []) [[9]]).2.1 rfl,
    (c9_extract_tables (List Nat) (Except.error ()) [[9]]).2.2 () rfl⟩

/-! ## Page reordering (C10) -/

/-- Folding list append over a list of produced segments concatenates the
segments after the accumulator. -/
theorem foldl_append_eq_flatten {α : Type} (g : Nat → List α) :
    ∀ (l : List Nat) (acc : List α),
      l.foldl (fun d i => d ++ g i) acc = acc ++ (l.map g).flatten := by
  intro l
  induction l with
  | nil => intro acc; simp
  | cons i t ih => intro acc; simp [ih, List.append_assoc]

/-- `reorder_pages` emits, in order, the copy of each listed source page. -/
theorem reorderPages_eq {α : Type} (src : List α) (order : List Nat) :
    reorderPages src order =
      (order.map fun i => (src[i]?).toList).flatten := by
  rw [reorderPages]
  have hfun : insertPdfPage src = fun d i => d ++ (src[i]?).toList := rfl
  rw [hfun]
  exact foldl_append_eq_flatten (fun i => (src[i]?).toList) order []

/-- Claim C10: for a source document and any list of in-range 0-indexed
page positions (duplicates and omissions allowed, no permutation check),
`reorder_pages` outputs exactly one page per listed position, the j-th
output page being a copy of source page `new_order[j]`. -/
theorem c10_reorder_pages (α : Type) (src : List α) (order : List Nat)
    (h : ∀ i ∈ order, i < src.length) :
    (reorderPages src order).length = order.length ∧
    ∀ j : Nat, (reorderPages src order)[j]? =
      (order[j]?).bind fun i => src[i]? := by
  rw [reorderPages_eq]
  induction order with
  | nil => simp
  | cons i t ih =>
    have hi : i < src.length := h i (List.mem_cons_self i t)
    have ha : src[i]? = some src[i] := List.getElem?_eq_getElem hi
    have ht := ih fun j hj => h j (List.mem_cons_of_mem i hj)
    constructor
    · simp only [List.map_cons, List.flatten_cons, ha, List.length_append,
        List.length_cons, ht.1]
      simp [Nat.add_comm]
    · intro j
      cases j with
      | zero => simp [ha]
      | succ j => simp [ha, ht.2 j]

/-- Claim C10 witness: reordering three pages by the duplicating,
non-permutation order [2, 0, 2]. -/
theorem c10_reorder_pages_witness :
    (reorderPages [10, 20, 30] [2, 0, 2]).length = 3 ∧
    (reorderPages [10, 20, 30] [2, 0, 2])[1]? = some 10 :=
  ⟨(c10_reorder_pages Nat [10, 20, 30] [2, 0, 2] (by decide)).1,
    ((c10_reorder_pages Nat [10, 20, 30] [2, 0, 2] (by decide)).2 1).trans
      (by decide)⟩

end PdfToolbox
